import Mathlib

/-!
Verification development for the PaymentAgentDemo repository.

The repository is a small multi-service Python demo:
  - `services/marketplace_mock/main.py`   (Resource Server)
  - `services/payment_manager/main.py`    (Token Service)
  - `services/agent_orchestrator/main.py` (Task Orchestrator + fetch protocol)
  - `services/token_issuer_mock/main.py`  (unused by the workflow)

We shallowly embed the handlers as pure Lean functions.  HTTP bodies are
modelled by a small JSON value type; FastAPI's serialization of a handler
return value (compact separators, insertion order preserved) is modelled by
`Json.render`, and an `HTTPException(status_code, detail=d)` response is
modelled as the JSON object with the single key "detail" mapping to `d`,
exactly as FastAPI's default exception handler produces it.  Python dicts
(the task store `TASKS`, a task record, the token store `TOKENS`) are
modelled as insertion-ordered association lists.  `uuid.uuid4()` is modelled
by a deterministic fresh-id counter threaded through the state (the only
property of uuids the code relies on is freshness/non-emptiness).
Network clients (`httpx.Client` / `TestClient`) are modelled as explicit
state-threading functions that may fail (`Except`), mirroring that an
`httpx` request either returns a response or raises.
-/

namespace PaymentAgentDemo

/-- JSON values, the payloads exchanged between the services.  Arrays do not
occur in any request or response of this system and are omitted. -/
inductive Json where
  | null
  | bool (b : Bool)
  | int (n : Int)
  | str (s : String)
  | obj (fields : List (String × Json))
deriving Repr

mutual

/-- Compact JSON serialization, as FastAPI's `JSONResponse` produces it
(separators without spaces, object fields in insertion order).  The strings
appearing in this system need no escaping. -/
def Json.render : Json → String
  | .null => "null"
  | .bool b => if b then "true" else "false"
  | .int n => toString n
  | .str s => "\"" ++ s ++ "\""
  | .obj fs => "\x7b" ++ Json.renderFields fs ++ "\x7d"

/-- Serialization of the field list of a JSON object. -/
def Json.renderFields : List (String × Json) → String
  | [] => ""
  | [(k, v)] => "\"" ++ k ++ "\":" ++ Json.render v
  | (k, v) :: kv :: rest =>
      "\"" ++ k ++ "\":" ++ Json.render v ++ "," ++ Json.renderFields (kv :: rest)

end

/-- Python `str()` as used by the f-string `f"## {theme}..."` in
`run_workflow`.  Scalar cases are exact; every theme actually stored by
`create_task` is a string, so only the `.str` case is ever reached (the
object case is approximated by JSON rendering). -/
def Json.pyStr : Json → String
  | .null => "None"
  | .bool b => if b then "True" else "False"
  | .int n => toString n
  | .str s => s
  | .obj fs => (Json.obj fs).render

/-- Projection used to state claims over decidable propositions: the string
carried by a JSON value, if it is a string. -/
def Json.asStr : Json → Option String
  | .str s => some s
  | _ => none

/-- Projection: the integer carried by a JSON value, if it is an integer. -/
def Json.asInt : Json → Option Int
  | .int n => some n
  | _ => none

/-- Python dictionary lookup `d.get(k)` on an insertion-ordered
association list. -/
def dget {β : Type} (d : List (String × β)) (k : String) : Option β :=
  d.lookup k

/-- Python dictionary assignment `d[k] = v`: replace the value in place when
the key is present, append otherwise (insertion order preserved). -/
def dset {β : Type} (d : List (String × β)) (k : String) (v : β) :
    List (String × β) :=
  match d with
  | [] => [(k, v)]
  | (k0, v0) :: rest =>
      if k0 = k then (k, v) :: rest else (k0, v0) :: dset rest k v

/-- An HTTP response as observed by the orchestrator through `httpx`:
`status_code`, and the JSON body (`r.json()` is the body itself, `r.text`
its serialization). -/
structure HttpResponse where
  status_code : Int
  body : Json
deriving Repr

/-- The field access `r.text`: the raw response text, i.e. the serialized JSON body. -/
def HttpResponse.text (r : HttpResponse) : String :=
  r.body.render

/-- Python `r.json().get(key, default)`: succeeds when the parsed body is a
JSON object (a Python dict), raises `AttributeError` otherwise. -/
def HttpResponse.jsonGetD (r : HttpResponse) (key : String) (default : Json) :
    Except String Json :=
  match r.body with
  | .obj fs => .ok ((dget fs key).getD default)
  | _ => .error "AttributeError"

/-- Python `r.json()[key]`: succeeds when the body is an object containing
the key, raises otherwise (`KeyError` / `TypeError`). -/
def HttpResponse.jsonIndex (r : HttpResponse) (key : String) :
    Except String Json :=
  match r.body with
  | .obj fs =>
      match dget fs key with
      | some v => .ok v
      | none => .error "KeyError"
  | _ => .error "TypeError"

/-! ## Resource Server (`services/marketplace_mock/main.py`) -/

/-- Model `PayRequest` (pydantic)  of the marketplace (`tokenId: str`,
`amount: int`). -/
structure PayRequest where
  tokenId : String
  amount : Int
deriving Repr, DecidableEq

/-- The static resource table `DETAIL` (marketplace line 10). -/
def DETAIL : List (String × Json) :=
  [("1", Json.obj
      [("id", Json.str "1"),
       ("name", Json.str "ACME Corp"),
       ("description", Json.str "A company")])]

/-- Python truthiness test `if not x_payment_token:` on an optional header
string: true for a missing header and for the empty string. -/
def headerFalsy : Option String → Bool
  | none => true
  | some s => s = ""

/-- Handler `GET /company/detail` (marketplace lines 21-25): without a
(non-empty) `x-payment-token` header it raises
`HTTPException(402, detail={"price": 10})`, which FastAPI serializes as the
body `{"detail":{"price":10}}`; with any non-empty token header it returns
`DETAIL.get(id)` (the record, or JSON null for an unknown id) with
status 200.  No token store is consulted. -/
def get_detail (id : String) (x_payment_token : Option String) : HttpResponse :=
  if headerFalsy x_payment_token then
    ⟨402, Json.obj [("detail", Json.obj [("price", Json.int 10)])]⟩
  else
    ⟨200, (dget DETAIL id).getD Json.null⟩

/-- Handler `POST /pay` (marketplace lines 27-29): returns
`{"success": True}` unconditionally; the request is not inspected and no
state exists to change. -/
def pay (_req : PayRequest) : HttpResponse :=
  ⟨200, Json.obj [("success", Json.bool true)]⟩

/-! ## Token Service (`services/payment_manager/main.py`) -/

/-- Model `TokenRequest` (pydantic) (`budget: int`, `voice_id: str`). -/
structure TokenRequest where
  budget : Int
  voice_id : String
deriving Repr, DecidableEq

/-- Model `TokenResponse` (`token_id: str`, `expire_in: int`). -/
structure TokenResponse where
  token_id : String
  expire_in : Int
deriving Repr, DecidableEq

/-- State of the Token Service: the module-level dict `TOKENS` mapping token
id to the stored budget, plus the fresh-id counter modelling `uuid.uuid4()`. -/
structure PaymentState where
  tokens : List (String × Int)
  nextId : Nat
deriving Repr, DecidableEq

/-- The fresh token id produced for the n-th issuance (models `uuid4`;
always non-empty and distinct for distinct counters). -/
def freshTokenId (n : Nat) : String :=
  "token-" ++ toString n

/-- Handler `POST /token` (payment manager lines 27-31): unconditionally
stores `TOKENS[token_id] = req.budget` for a fresh `token_id` and returns it
with `expire_in = 3600`.  There is no budget validation of any kind. -/
def create_token (req : TokenRequest) (st : PaymentState) :
    TokenResponse × PaymentState :=
  let token_id := freshTokenId st.nextId
  (⟨token_id, 3600⟩, ⟨dset st.tokens token_id req.budget, st.nextId + 1⟩)

/-- Handler `GET /balance/{token_id}` (payment manager lines 33-36):
`TOKENS.get(token_id, 0)`. -/
def get_balance (token_id : String) (st : PaymentState) : Int :=
  (dget st.tokens token_id).getD 0

/-! ## Task Orchestrator (`services/agent_orchestrator/main.py`) -/

/-- Model `TaskRequest` (pydantic) (`theme: str`, `budget: int`,
`voice_id: str`). -/
structure TaskRequest where
  theme : String
  budget : Int
  voice_id : String
deriving Repr, DecidableEq

/-- A task record: the Python dict `req.dict()` stored in `TASKS`, to which
`run_workflow` may later add a `"report"` key.  Modelled as an
insertion-ordered association list, so that the presence or absence of a key
(such as a `"status"` key) is directly observable. -/
abbrev TaskDict : Type := List (String × Json)

/-- The module-level task store `TASKS` (orchestrator line 25). -/
abbrev Tasks : Type := List (String × TaskDict)

/-- The fresh task id produced for the n-th submission (models `uuid4`). -/
def freshTaskId (n : Nat) : String :=
  "task-" ++ toString n

/-- Handler `POST /tasks` (orchestrator lines 27-32): generates a fresh task
id, stores `req.dict()` under it, schedules `run_workflow task_id` as a
background task and returns the id.  The scheduled run itself is invoked
separately (as the repository's own test does). -/
def create_task (req : TaskRequest) (tasks : Tasks) (n : Nat) :
    String × Tasks × Nat :=
  let task_id := freshTaskId n
  (task_id,
   dset tasks task_id
     [("theme", Json.str req.theme),
      ("budget", Json.int req.budget),
      ("voice_id", Json.str req.voice_id)],
   n + 1)

/-- One outbound network call issued by `run_workflow`, in program order:
the resource GET (with its optional `x-payment-token` header), the token
issuance POST, and the settlement POST. -/
inductive Event where
  | get (path : String) (x_payment_token : Option String)
  | token (budget : Json) (voice : Json)
  | payc (tokenId : String) (amount : Json)
deriving Repr

/-- A marketplace client as used by `run_workflow`: `get` and the `/pay`
POST, threading a client state and possibly raising (modelling `httpx`
transport errors). -/
structure MClient (σ : Type) where
  get : String → Option String → σ → Except String (HttpResponse × σ)
  post_pay : String → Json → σ → Except String (HttpResponse × σ)

/-- A payment-manager client as used by `run_workflow`: the `/token` POST
with JSON body `{"budget": ..., "voice_id": ...}`. -/
structure PClient (σ : Type) where
  post_token : Json → Json → σ → Except String (HttpResponse × σ)

/-- Result of one `run_workflow` invocation: whether it returned normally or
a Python exception propagated out of it, the task store and client states
after the run (module-level state persists even when an exception escapes),
and the trace of outbound calls issued. -/
structure RunResult (σm σp : Type) where
  outcome : Except String Unit
  tasks : Tasks
  sm : σm
  sp : σp
  trace : List Event

/-- The workflow driver `run_workflow` (orchestrator lines 34-54), with the
two clients injected as the repository's test does.  Line by line:
`task = TASKS.get(task_id); if not task: return` (an absent or empty record
returns silently); `theme = task["theme"]`; an unauthenticated GET of
`/company/detail?id=1`; if it returned 402, `price = r.json().get("price", 0)`,
a `POST /token` with `{"budget": price, "voice_id": task["voice_id"]}`,
`token_id = token_resp.json()["token_id"]`, a `POST /pay` whose response is
ignored, and a retry GET with the `x-payment-token` header; finally
`TASKS[task_id]["report"] = f"## {theme}\n\n{r.text}"`.  There is no budget
check, no status bookkeeping, and no exception handler: any client failure
propagates as the outcome `.error`. -/
def run_workflow {σm σp : Type} (mc : MClient σm) (pc : PClient σp)
    (tasks : Tasks) (task_id : String) (sm : σm) (sp : σp) :
    RunResult σm σp :=
  match dget tasks task_id with
  | none => ⟨.ok (), tasks, sm, sp, []⟩
  | some [] => ⟨.ok (), tasks, sm, sp, []⟩
  | some task =>
    match dget task "theme" with
    | none => ⟨.error "KeyError: theme", tasks, sm, sp, []⟩
    | some themeV =>
      let theme := themeV.pyStr
      let detail_path := "/company/detail?id=1"
      match mc.get detail_path none sm with
      | .error e => ⟨.error e, tasks, sm, sp, [.get detail_path none]⟩
      | .ok (r, sm1) =>
        if r.status_code = 402 then
          match r.jsonGetD "price" (Json.int 0) with
          | .error e => ⟨.error e, tasks, sm1, sp, [.get detail_path none]⟩
          | .ok price =>
            match dget task "voice_id" with
            | none => ⟨.error "KeyError: voice_id", tasks, sm1, sp,
                       [.get detail_path none]⟩
            | some voice =>
              match pc.post_token price voice sp with
              | .error e => ⟨.error e, tasks, sm1, sp,
                             [.get detail_path none, .token price voice]⟩
              | .ok (token_resp, sp1) =>
                match token_resp.jsonIndex "token_id" with
                | .error e => ⟨.error e, tasks, sm1, sp1,
                               [.get detail_path none, .token price voice]⟩
                | .ok tokenV =>
                  match tokenV.asStr with
                  | none => ⟨.error "TypeError: header value must be str",
                             tasks, sm1, sp1,
                             [.get detail_path none, .token price voice]⟩
                  | some token_id =>
                    match mc.post_pay token_id price sm1 with
                    | .error e => ⟨.error e, tasks, sm1, sp1,
                                   [.get detail_path none, .token price voice,
                                    .payc token_id price]⟩
                    | .ok (_, sm2) =>
                      match mc.get detail_path (some token_id) sm2 with
                      | .error e => ⟨.error e, tasks, sm2, sp1,
                                     [.get detail_path none, .token price voice,
                                      .payc token_id price,
                                      .get detail_path (some token_id)]⟩
                      | .ok (r2, sm3) =>
                        ⟨.ok (),
                         dset tasks task_id
                           (dset task "report"
                             (Json.str ("## " ++ theme ++ "\n\n" ++ r2.text))),
                         sm3, sp1,
                         [.get detail_path none, .token price voice,
                          .payc token_id price,
                          .get detail_path (some token_id)]⟩
        else
          ⟨.ok (),
           dset tasks task_id
             (dset task "report"
               (Json.str ("## " ++ theme ++ "\n\n" ++ r.text))),
           sm1, sp, [.get detail_path none]⟩

/-! ## Concrete clients backed by the embedded services

These mirror the repository's own test, which injects `TestClient`s of the
marketplace and payment-manager apps into `run_workflow`. -/

/-- Routing of a marketplace GET: the only path the workflow requests is
`/company/detail?id=1`, dispatched to `get_detail` with id `"1"`. -/
def marketRouteGet (path : String) (tok : Option String) : HttpResponse :=
  if path = "/company/detail?id=1" then get_detail "1" tok
  else ⟨404, Json.obj [("detail", Json.str "Not Found")]⟩

/-- Framework validation of the `/pay` body: pydantic requires `amount` to
be an integer (the only case any run of this system produces) and then
dispatches to `pay`. -/
def marketRoutePay (tokenId : String) (amount : Json) : HttpResponse :=
  match amount.asInt with
  | some n => pay ⟨tokenId, n⟩
  | none => ⟨422, Json.obj [("detail", Json.str "validation error")]⟩

/-- The marketplace service is stateless; its client threads a unit state
and never raises (a `TestClient` call does not fail at transport level). -/
def marketplace_client : MClient Unit where
  get path tok _ := .ok (marketRouteGet path tok, ())
  post_pay tokenId amount _ := .ok (marketRoutePay tokenId amount, ())

/-- Framework validation of the `/token` body: pydantic requires `budget` to
be an integer and `voice_id` a string, then dispatches to `create_token`. -/
def paymentRouteToken (budget : Json) (voice : Json) (st : PaymentState) :
    HttpResponse × PaymentState :=
  match budget.asInt, voice.asStr with
  | some b, some v =>
      let (resp, st1) := create_token ⟨b, v⟩ st
      (⟨200, Json.obj [("token_id", Json.str resp.token_id),
                       ("expire_in", Json.int resp.expire_in)]⟩, st1)
  | _, _ => (⟨422, Json.obj [("detail", Json.str "validation error")]⟩, st)

/-- The payment-manager client, threading the Token Service state. -/
def payment_client : PClient PaymentState where
  post_token budget voice st := .ok (paymentRouteToken budget voice st)

/-- One scheduled execution of the composed demo system: `run_workflow`
against the embedded marketplace and payment-manager services, as in the
repository's test. -/
def runComposed (tasks : Tasks) (pst : PaymentState) (task_id : String) :
    RunResult Unit PaymentState :=
  run_workflow marketplace_client payment_client tasks task_id () pst

/-! ## Observations used to state the claims -/

/-- The record stored for a task id (empty when absent). -/
def taskOf (ts : Tasks) (tid : String) : TaskDict :=
  (dget ts tid).getD []

/-- A field of a task record. -/
def taskField (ts : Tasks) (tid k : String) : Option Json :=
  dget (taskOf ts tid) k

/-- The `"status"` field of a task record, as a string (the code never
writes such a field). -/
def statusField (ts : Tasks) (tid : String) : Option String :=
  (taskField ts tid "status").bind Json.asStr

/-- The `"report"` field of a task record, as a string. -/
def reportField (ts : Tasks) (tid : String) : Option String :=
  (taskField ts tid "report").bind Json.asStr

/-- The `"error"` field of a task record (the structured failure reason the
specification describes; the code never writes such a field). -/
def errorField (ts : Tasks) (tid : String) : Option String :=
  (taskField ts tid "error").bind Json.asStr

/-- Lookup of a field of a JSON object. -/
def Json.objGet : Json → String → Option Json
  | .obj fs, k => dget fs k
  | _, _ => none

/-- The `"success"` flag of a `/pay` response body. -/
def successFlag (r : HttpResponse) : Option Bool :=
  (r.body.objGet "success").bind fun j =>
    match j with
    | .bool b => some b
    | _ => none

/-- Whether an event is a resource GET carrying a payment token, for
counting authenticated retrievals. -/
def Event.isTokenGet : Event → Bool
  | .get _ (some _) => true
  | _ => false

/-- The events issued strictly after the first settlement (`/pay`) call of a
trace. -/
def afterSettle : List Event → List Event
  | [] => []
  | .payc _ _ :: rest => rest
  | _ :: rest => afterSettle rest

/-- How many token-attached resource GETs a trace issues after its first
settlement call. -/
def tokenGetsAfterSettle (tr : List Event) : Nat :=
  (afterSettle tr).countP Event.isTokenGet

/-- Setting a key and then reading it back yields the written value. -/
theorem dget_dset {β : Type} (d : List (String × β)) (k : String) (v : β) :
    dget (dset d k v) k = some v := by
  induction d with
  | nil => simp [dget, dset, List.lookup]
  | cons kv rest ih =>
      obtain ⟨k0, v0⟩ := kv
      by_cases h : k0 = k
      · simp [dget, dset, h, List.lookup]
      · have hne : (k == k0) = false := beq_eq_false_iff_ne.mpr (Ne.symm h)
        simpa [dget, dset, h, List.lookup, hne] using ih

/-! ## Fixtures: concrete initial states used by the claims -/

/-- A task store holding one freshly submitted task `"t1"` with theme
`"test"`, the given budget, and voice id `"v1"` (the record that
`create_task` produces). -/
def initialTasks (b : Int) : Tasks :=
  [("t1",
    [("theme", Json.str "test"),
     ("budget", Json.int b),
     ("voice_id", Json.str "v1")])]

/-- The Token Service state before any issuance. -/
def pst0 : PaymentState := ⟨[], 0⟩

/-- The serialized body of the priced resource `"1"`. -/
def detailText : String :=
  ((dget DETAIL "1").getD Json.null).render

/-- The report `run_workflow` stores for theme `"test"` after fetching
resource `"1"`. -/
def acmeReport : String :=
  "## " ++ "test" ++ "\n\n" ++ detailText

/-! ## Claims -/

/-- C1 counterexample: the claim states that for a task whose budget (5) is
below the quoted price (10) the scheduled run ends in status `failed` with
reason `BudgetExceeded` and issues no token.  The code does none of this:
the run records no status and no reason, and the Token Service's store gains
a token, so the claimed conjunction is false. -/
theorem C1_counterexample :
    ¬ (statusField (runComposed (initialTasks 5) pst0 "t1").tasks "t1"
         = some "failed"
       ∧ errorField (runComposed (initialTasks 5) pst0 "t1").tasks "t1"
         = some "BudgetExceeded"
       ∧ (runComposed (initialTasks 5) pst0 "t1").sp.tokens = pst0.tokens) := by
  decide

/-- C1 amended: `run_workflow` performs no budget check at all.  For every
budget b below the quoted price 10, the scheduled run still returns
normally, records neither a status nor a failure reason, stores the report,
and issues exactly one token — with budget 0, the value the driver extracts
from the 402 body. -/
theorem C1_amended (b : Int) (h : b < 10) :
    (runComposed (initialTasks b) pst0 "t1").outcome = .ok () ∧
    statusField (runComposed (initialTasks b) pst0 "t1").tasks "t1" = none ∧
    errorField (runComposed (initialTasks b) pst0 "t1").tasks "t1" = none ∧
    reportField (runComposed (initialTasks b) pst0 "t1").tasks "t1"
      = some acmeReport ∧
    (runComposed (initialTasks b) pst0 "t1").sp.tokens
      = [(freshTokenId 0, 0)] :=
  ⟨rfl, rfl, rfl, rfl, rfl⟩

/-- C1 witness: the amended theorem applied at the concrete budget 5. -/
theorem C1_witness :
    (runComposed (initialTasks 5) pst0 "t1").outcome = .ok () ∧
    statusField (runComposed (initialTasks 5) pst0 "t1").tasks "t1" = none ∧
    errorField (runComposed (initialTasks 5) pst0 "t1").tasks "t1" = none ∧
    reportField (runComposed (initialTasks 5) pst0 "t1").tasks "t1"
      = some acmeReport ∧
    (runComposed (initialTasks 5) pst0 "t1").sp.tokens
      = [(freshTokenId 0, 0)] :=
  C1_amended 5 (by decide)

/-- C2 counterexample: the claim states that for budget 50 ≥ price 10 the
run ends with the task in status `completed`.  The code never writes any
status field, so the task's status is not `completed` after the run. -/
theorem C2_counterexample :
    ¬ (statusField (runComposed (initialTasks 50) pst0 "t1").tasks "t1"
         = some "completed") := by
  decide

/-- C2 amended: for every budget b ≥ price 10 the run returns normally and
the stored report contains the fetched resource content (the serialized
record of resource "1"), but the code maintains no status field, so the task
is not marked `completed`. -/
theorem C2_amended (b : Int) (h : 10 ≤ b) :
    (runComposed (initialTasks b) pst0 "t1").outcome = .ok () ∧
    (∃ pre post,
      reportField (runComposed (initialTasks b) pst0 "t1").tasks "t1"
        = some (pre ++ detailText ++ post)) ∧
    statusField (runComposed (initialTasks b) pst0 "t1").tasks "t1" = none :=
  ⟨rfl, ⟨"## test\n\n", "", rfl⟩, rfl⟩

/-- C2 witness: the amended theorem applied at the concrete budget 50. -/
theorem C2_witness :
    (runComposed (initialTasks 50) pst0 "t1").outcome = .ok () ∧
    (∃ pre post,
      reportField (runComposed (initialTasks 50) pst0 "t1").tasks "t1"
        = some (pre ++ detailText ++ post)) ∧
    statusField (runComposed (initialTasks 50) pst0 "t1").tasks "t1" = none :=
  C2_amended 50 (by decide)

/-- The first scheduled execution of task `"t1"` (budget 50) against the
embedded services. -/
def doubleRun1 : RunResult Unit PaymentState :=
  runComposed (initialTasks 50) pst0 "t1"

/-- A second scheduled execution for the same task id, from the state the
first run left behind. -/
def doubleRun2 : RunResult Unit PaymentState :=
  runComposed doubleRun1.tasks doubleRun1.sp "t1"

/-- C3 counterexample: the claim states that re-invoking the scheduled
execution for an already settled task issues no additional token and leaves
the report unchanged.  The second invocation issues a second token (the
token store changes), so the claimed conjunction is false. -/
theorem C3_counterexample :
    ¬ (doubleRun2.sp.tokens = doubleRun1.sp.tokens
       ∧ reportField doubleRun2.tasks "t1" = reportField doubleRun1.tasks "t1") := by
  decide

/-- C3 amended: `run_workflow` has no status guard, so a second invocation
re-runs the whole handshake and issues a second token; the stored report is
rewritten with an identical string, so its value is unchanged. -/
theorem C3_amended :
    doubleRun2.outcome = .ok () ∧
    doubleRun2.sp.tokens = [(freshTokenId 0, 0), (freshTokenId 1, 0)] ∧
    reportField doubleRun2.tasks "t1" = reportField doubleRun1.tasks "t1" ∧
    reportField doubleRun1.tasks "t1" = some acmeReport :=
  ⟨rfl, rfl, rfl, rfl⟩

/-- C4 counterexample: the claim states that a settlement with non-positive
amount is rejected (returns failure).  The `/pay` handler returns
`{"success": true}` with status 200 for the amount -5, so it does not return
failure there. -/
theorem C4_counterexample :
    ¬ (successFlag (pay ⟨"some-token", -5⟩) = some false
       ∨ (pay ⟨"some-token", -5⟩).status_code ≠ 200) := by
  decide

/-- C4 amended: the `/pay` handler performs no validation whatsoever: for
every request — any token id and any amount, including non-positive ones —
it returns status 200 with body `{"success": true}`.  It is a pure function
of the request, so no server state changes (the claim's no-state-change part
holds, its validation part does not). -/
theorem C4_amended (req : PayRequest) :
    pay req = ⟨200, Json.obj [("success", Json.bool true)]⟩ :=
  rfl

/-- C5 counterexample: the claim states that balances are never negative and
that issuance fails with `InvalidBudget` for a negative budget.  Issuing a
token with budget -5 succeeds and stores balance -5, which `get_balance`
then reports: the state reached after the issuance violates
non-negativity. -/
theorem C5_counterexample :
    ¬ (0 ≤ get_balance (create_token ⟨-5, "v1"⟩ pst0).1.token_id
           (create_token ⟨-5, "v1"⟩ pst0).2) := by
  decide

/-- C5 amended: `create_token` performs no budget validation: for every
integer budget b — negative ones included — issuance from the fresh state
succeeds with a normal token response, stores b verbatim as the balance, and
`get_balance` returns b. -/
theorem C5_amended (b : Int) (v : String) :
    (create_token ⟨b, v⟩ pst0).1 = ⟨freshTokenId 0, 3600⟩ ∧
    (create_token ⟨b, v⟩ pst0).2.tokens = [(freshTokenId 0, b)] ∧
    get_balance (create_token ⟨b, v⟩ pst0).1.token_id
        (create_token ⟨b, v⟩ pst0).2 = b :=
  ⟨rfl, rfl, rfl⟩

/-- Every trace emitted by `run_workflow` — against any clients, any states
and any task store, in both the normal and the exception outcome — contains
at most one token-attached resource GET after the settlement call: the code
is a straight line with a single retry and no loop. -/
theorem run_workflow_single_retry {σm σp : Type} (mc : MClient σm)
    (pc : PClient σp) (tasks : Tasks) (task_id : String) (sm : σm) (sp : σp) :
    tokenGetsAfterSettle (run_workflow mc pc tasks task_id sm sp).trace ≤ 1 := by
  unfold run_workflow
  repeat' split
  all_goals simp only [RunResult.trace]
  all_goals repeat' split
  all_goals
    simp [tokenGetsAfterSettle, afterSettle, Event.isTokenGet, List.countP,
      List.countP.go]

/-- A marketplace that keeps refusing: it answers every GET — with or
without a payment token — with a 402 quoting price 10 at top level, and
accepts settlement.  This drives `run_workflow` through the full pay-retry
cycle with the retry refused. -/
def stubborn_client : MClient Unit where
  get _ _ _ := .ok (⟨402, Json.obj [("price", Json.int 10)]⟩, ())
  post_pay _ _ _ := .ok (⟨200, Json.obj [("success", Json.bool true)]⟩, ())

/-- The run of task `"t1"` (budget 50) against the stubborn marketplace and
the embedded Token Service. -/
def stubbornRun : RunResult Unit PaymentState :=
  run_workflow stubborn_client payment_client (initialTasks 50) "t1" () pst0

/-- C6 counterexample: the claim states that when the authenticated retry is
again refused the protocol transitions to `Failed` with reason
`PaymentNotHonored`.  Against the stubborn marketplace the retry is refused
(402), yet the run records no `failed` status and no `PaymentNotHonored`
reason — it returns normally and stores the refusal body as the report. -/
theorem C6_counterexample :
    ¬ (statusField stubbornRun.tasks "t1" = some "failed"
       ∧ errorField stubbornRun.tasks "t1" = some "PaymentNotHonored") := by
  decide

/-- C6 amended: the single-retry half of the claim holds — every run of the
workflow issues at most one token-attached GET after settlement — but when
that retry is refused the code does not fail with `PaymentNotHonored`: it
returns normally and stores the serialized refusal body as the task's
report. -/
theorem C6_amended :
    (∀ {σm σp : Type} (mc : MClient σm) (pc : PClient σp) (tasks : Tasks)
        (task_id : String) (sm : σm) (sp : σp),
      tokenGetsAfterSettle
        (run_workflow mc pc tasks task_id sm sp).trace ≤ 1) ∧
    stubbornRun.outcome = .ok () ∧
    statusField stubbornRun.tasks "t1" = none ∧
    errorField stubbornRun.tasks "t1" = none ∧
    reportField stubbornRun.tasks "t1"
      = some ("## test\n\n" ++ (Json.obj [("price", Json.int 10)]).render) ∧
    tokenGetsAfterSettle stubbornRun.trace = 1 :=
  ⟨fun mc pc tasks task_id sm sp =>
      run_workflow_single_retry mc pc tasks task_id sm sp,
   rfl, rfl, rfl, rfl, rfl⟩

/-- C7: the two services disagree about where the price lives.  The
unauthenticated GET does return 402, but its body is
`{"detail":{"price":10}}` — FastAPI wraps the handler's
`HTTPException(402, detail={"price": 10})` under a top-level `"detail"`
key — so the body's top-level `"price"` field is absent and the quote 10
sits nested under `"detail"`.  The driver's `r.json().get("price", 0)`
therefore extracts the default 0, and the composed run requests a token
with budget 0 instead of the quoted price 10. -/
theorem C7_code_bug :
    (get_detail "1" none).status_code = 402 ∧
    (get_detail "1" none).body.objGet "price" = none ∧
    (((get_detail "1" none).body.objGet "detail").bind
        (fun j => j.objGet "price")).bind Json.asInt = some 10 ∧
    (runComposed (initialTasks 50) pst0 "t1").sp.tokens
      = [(freshTokenId 0, 0)] :=
  ⟨rfl, rfl, rfl, rfl⟩

/-- A marketplace whose transport fails: every request raises (modelling an
unreachable Resource Server, `httpx.ConnectError`). -/
def down_client (e : String) : MClient Unit where
  get _ _ _ := .error e
  post_pay _ _ _ := .error e

/-- The run of task `"t1"` against the unreachable marketplace. -/
def downRun : RunResult Unit PaymentState :=
  run_workflow (down_client "httpx.ConnectError") payment_client
    (initialTasks 50) "t1" () pst0

/-- C8 counterexample: the claim states that every protocol-level failure is
caught by the workflow driver and recorded on the task with a structured
reason.  With the Resource Server unreachable, the run does not return
normally — the transport exception escapes the scheduled-execution
boundary — and no reason is recorded on the task. -/
theorem C8_counterexample :
    ¬ (downRun.outcome.isOk = true
       ∧ (errorField downRun.tasks "t1").isSome = true) := by
  decide

/-- C8 amended: `run_workflow` contains no exception handler.  For every
failure message e and every budget b, a run whose first upstream call raises
e propagates e past the scheduled-execution boundary and leaves the task
store exactly as it was: no report, no status, no structured reason. -/
theorem C8_amended (e : String) (b : Int) :
    run_workflow (down_client e) payment_client (initialTasks b) "t1" () pst0
      = ⟨.error e, initialTasks b, (), pst0,
         [.get "/company/detail?id=1" none]⟩ :=
  rfl

/-- C9: the Resource Server grants the resource to any non-empty token.  For
every resource id present in `DETAIL` and every non-empty
`x-payment-token` header value — issued or not, settled or not; `get_detail`
consults no token state at all — the GET returns status 200 with the full
stored record as the body. -/
theorem C9_any_token_grants (id : String) (rec : Json) (tok : String)
    (hrec : dget DETAIL id = some rec) (htok : tok ≠ "") :
    get_detail id (some tok) = ⟨200, rec⟩ := by
  simp [get_detail, headerFalsy, htok, hrec]

/-- C9 witness: resource `"1"` is served with status 200 and its full record
to the token `"never-issued"`, which no Token Service ever issued. -/
theorem C9_witness :
    get_detail "1" (some "never-issued")
      = ⟨200, Json.obj
          [("id", Json.str "1"),
           ("name", Json.str "ACME Corp"),
           ("description", Json.str "A company")]⟩ :=
  C9_any_token_grants "1" _ "never-issued" rfl (by decide)

/-- An operation of the post-issuance lifetime considered by the claim: a
settlement submitted to the Resource Server's `/pay`, or a balance lookup. -/
inductive LifetimeOp where
  | settle (req : PayRequest)
  | balance (tokenId : String)

/-- The effect of a lifetime operation on the Token Service state: `/pay`
lives in the marketplace service, which holds no reference to `TOKENS`
(its handler is the pure `pay`), and `get_balance` only reads, so neither
writes the store. -/
def applyLifetimeOp (st : PaymentState) : LifetimeOp → PaymentState
  | .settle req => (fun (_ : HttpResponse) => st) (pay req)
  | .balance tid => (fun (_ : Int) => st) (get_balance tid st)

/-- Sequential application of lifetime operations. -/
def applyLifetimeOps (st : PaymentState) : List LifetimeOp → PaymentState
  | [] => st
  | op :: rest => applyLifetimeOps (applyLifetimeOp st op) rest

/-- C10: an issued token's stored balance is never modified afterwards.
After `create_token` stores the budget, any sequence of settlements and
balance lookups leaves the token store unchanged, and `get_balance` on the
new token returns the original issuance budget throughout. -/
theorem C10_balance_frozen (req : TokenRequest) (st : PaymentState)
    (ops : List LifetimeOp) :
    applyLifetimeOps (create_token req st).2 ops = (create_token req st).2 ∧
    get_balance (create_token req st).1.token_id
        (applyLifetimeOps (create_token req st).2 ops) = req.budget := by
  have frame : ∀ (s : PaymentState) (l : List LifetimeOp),
      applyLifetimeOps s l = s := by
    intro s l
    induction l generalizing s with
    | nil => rfl
    | cons op rest ih =>
        cases op <;> simpa [applyLifetimeOps, applyLifetimeOp] using ih _
  refine ⟨frame _ _, ?_⟩
  rw [frame]
  simp [create_token, get_balance, dget_dset]

end PaymentAgentDemo
